import Mathlib

/-!
Verification of the activity-classification core of the Human-Activity-Detection
repository (src/src/App.tsx). The TypeScript core is shallowly embedded: 2D
coordinates and scores become real numbers, the JavaScript `Math` functions
become their Mathlib counterparts (`Math.atan2` is `Complex.arg`, `Math.sqrt`
is `Real.sqrt`), keypoint frames become lists of a `Keypoint` structure, and
the two React state buffers become explicit list arguments threaded through
`processFrame`. Activity labels stay the string literals the source returns.
-/

/-- A detected keypoint, as consumed by `determineActivity`
(`poseDetection.Keypoint`: `{name, x, y, score}`). -/
structure Keypoint where
  name : String
  x : ℝ
  y : ℝ
  score : ℝ

/-- Build a keypoint. -/
def mkKp (n : String) (px py sc : ℝ) : Keypoint :=
  { name := n, x := px, y := py, score := sc }

@[simp] lemma mkKp_name (n : String) (px py sc : ℝ) : (mkKp n px py sc).name = n := rfl

@[simp] lemma mkKp_x (n : String) (px py sc : ℝ) : (mkKp n px py sc).x = px := rfl

@[simp] lemma mkKp_y (n : String) (px py sc : ℝ) : (mkKp n px py sc).y = py := rfl

@[simp] lemma mkKp_score (n : String) (px py sc : ℝ) : (mkKp n px py sc).score = sc := rfl

/-- An `{x, y}` position sample, as stored in `previousPositions`. -/
structure Pt where
  x : ℝ
  y : ℝ

/-- A `{left: {x,y}, right: {x,y}}` wrist-pair sample, as stored in
`wristPositions`. -/
structure WristPair where
  left : Pt
  right : Pt

/-- `Math.atan2 y x`: the argument of the point `(x, y)`, in `(-π, π]`. -/
noncomputable def atan2 (py px : ℝ) : ℝ :=
  Complex.arg ⟨px, py⟩

/-- The raw absolute angle in degrees computed by `calculateAngle` before the
reflection step: `Math.abs((radians * 180.0) / Math.PI)` with
`radians = atan2(p3.y - p2.y, p3.x - p2.x) - atan2(p1.y - p2.y, p1.x - p2.x)`. -/
noncomputable def rawAngle (p1 p2 p3 : Keypoint) : ℝ :=
  |(atan2 (p3.y - p2.y) (p3.x - p2.x) - atan2 (p1.y - p2.y) (p1.x - p2.x)) * 180 / Real.pi|

/-- `calculateAngle(p1, p2, p3)` from the source: the raw angle, reflected to
`360 - angle` when it exceeds `180`. -/
noncomputable def calculateAngle (p1 p2 p3 : Keypoint) : ℝ :=
  if rawAngle p1 p2 p3 > 180 then 360 - rawAngle p1 p2 p3 else rawAngle p1 p2 p3

/-- `calculateDistance(p1, p2)` from the source:
`Math.sqrt(Math.pow(p2.x - p1.x, 2) + Math.pow(p2.y - p1.y, 2))`. -/
noncomputable def calculateDistance (p1 p2 : Keypoint) : ℝ :=
  Real.sqrt ((p2.x - p1.x) ^ 2 + (p2.y - p1.y) ^ 2)

/- Evaluation lemmas for `atan2` on the axis directions, used to evaluate the
classifier on concrete frames. -/

lemma atan2_zero_zero : atan2 0 0 = 0 := by
  have h : (⟨0, 0⟩ : ℂ) = 0 := by
    simp [Complex.ext_iff]
  simp [atan2, h]

lemma atan2_zero_pos {px : ℝ} (hx : 0 < px) : atan2 0 px = 0 := by
  have h : (⟨px, 0⟩ : ℂ) = (px : ℂ) := by
    simp [Complex.ext_iff]
  rw [atan2, h]
  exact Complex.arg_ofReal_of_nonneg hx.le

lemma atan2_zero_neg {px : ℝ} (hx : px < 0) : atan2 0 px = Real.pi := by
  have h : (⟨px, 0⟩ : ℂ) = (px : ℂ) := by
    simp [Complex.ext_iff]
  rw [atan2, h]
  exact Complex.arg_ofReal_of_neg hx

lemma atan2_pos_zero {py : ℝ} (hy : 0 < py) : atan2 py 0 = Real.pi / 2 := by
  have h : (⟨0, py⟩ : ℂ) = (py : ℝ) * Complex.I := by
    simp [Complex.ext_iff]
  rw [atan2, h, Complex.arg_real_mul _ hy, Complex.arg_I]

lemma atan2_neg_zero {py : ℝ} (hy : py < 0) : atan2 py 0 = -(Real.pi / 2) := by
  have h : (⟨0, py⟩ : ℂ) = (-py : ℝ) * -Complex.I := by
    simp [Complex.ext_iff]
  rw [atan2, h, Complex.arg_real_mul _ (by linarith), Complex.arg_neg_I]

lemma neg_pi_lt_atan2 (py px : ℝ) : -Real.pi < atan2 py px :=
  Complex.neg_pi_lt_arg _

lemma atan2_le_pi (py px : ℝ) : atan2 py px ≤ Real.pi :=
  Complex.arg_le_pi _

/-- Evaluate `calculateAngle` when the two `atan2` values are known and the raw
degree value does not exceed `180`. -/
lemma calculateAngle_eval (p1 p2 p3 : Keypoint) (a b q : ℝ)
    (h3 : atan2 (p3.y - p2.y) (p3.x - p2.x) = a)
    (h1 : atan2 (p1.y - p2.y) (p1.x - p2.x) = b)
    (hq : |(a - b) * 180 / Real.pi| = q)
    (hle : ¬ q > 180) :
    calculateAngle p1 p2 p3 = q := by
  have hraw : rawAngle p1 p2 p3 = q := by
    rw [rawAngle, h3, h1, hq]
  rw [calculateAngle, hraw, if_neg hle]

/-- Evaluate `calculateAngle` when the two `atan2` values are known and the raw
degree value exceeds `180`, so the reflection branch is taken. -/
lemma calculateAngle_eval_reflect (p1 p2 p3 : Keypoint) (a b q : ℝ)
    (h3 : atan2 (p3.y - p2.y) (p3.x - p2.x) = a)
    (h1 : atan2 (p1.y - p2.y) (p1.x - p2.x) = b)
    (hq : |(a - b) * 180 / Real.pi| = q)
    (hgt : q > 180) :
    calculateAngle p1 p2 p3 = 360 - q := by
  have hraw : rawAngle p1 p2 p3 = q := by
    rw [rawAngle, h3, h1, hq]
  rw [calculateAngle, hraw, if_pos hgt]

/-- Evaluate `calculateDistance` at points whose squared separation is a known
perfect square. -/
lemma calculateDistance_eval (p1 p2 : Keypoint) (d : ℝ) (hd : 0 ≤ d)
    (h : (p2.x - p1.x) ^ 2 + (p2.y - p1.y) ^ 2 = d ^ 2) :
    calculateDistance p1 p2 = d := by
  rw [calculateDistance, h, Real.sqrt_sq hd]

lemma calculateDistance_nonneg (p1 p2 : Keypoint) : 0 ≤ calculateDistance p1 p2 :=
  Real.sqrt_nonneg _

/-! ### Temporal buffers

`detectPose` updates the two React state buffers with
`setPreviousPositions(prev => [...prev.slice(-9), {x, y}])` and
`setWristPositions(prev => [...prev.slice(-19), {left, right}])`.
`slice(-n)` keeps the last `n` elements (all of them when fewer exist), which
is `lastN` below; the spread-plus-element is `++ [s]`. -/

/-- `l.slice(-n)` from JavaScript: the last `n` elements of `l`, in order
(the whole list when it has fewer than `n` elements). -/
def lastN (n : ℕ) {α : Type} (l : List α) : List α :=
  l.drop (l.length - n)

/-- One buffer append with capacity `k + 1`: `[...prev.slice(-k), s]`. -/
def appendCap (k : ℕ) {α : Type} (prev : List α) (s : α) : List α :=
  lastN k prev ++ [s]

/-- The position-history append from `detectPose`:
`[...prev.slice(-9), {x: nose.x, y: nose.y}]`. -/
def appendPos (prev : List Pt) (s : Pt) : List Pt :=
  appendCap 9 prev s

/-- The wrist-history append from `detectPose`:
`[...prev.slice(-19), {left, right}]`. -/
def appendWrist (prev : List WristPair) (s : WristPair) : List WristPair :=
  appendCap 19 prev s

lemma lastN_length {α : Type} (n : ℕ) (l : List α) :
    (lastN n l).length = l.length - (l.length - n) := by
  simp [lastN]

lemma lastN_length_le {α : Type} (n : ℕ) (l : List α) : (lastN n l).length ≤ n := by
  rw [lastN_length]
  omega

lemma lastN_of_le {α : Type} {n : ℕ} {l : List α} (h : l.length ≤ n) : lastN n l = l := by
  rw [lastN, Nat.sub_eq_zero_of_le h, List.drop_zero]

lemma lastN_lastN {α : Type} {m n : ℕ} (h : m ≤ n) (l : List α) :
    lastN m (lastN n l) = lastN m l := by
  rw [lastN, lastN, lastN, List.drop_drop, List.length_drop]
  congr 1
  omega

lemma lastN_append_of_le {α : Type} {n : ℕ} (A B : List α) (h : n ≤ B.length) :
    lastN n (A ++ B) = lastN n B := by
  rw [lastN, lastN, List.drop_append_eq_append_drop]
  have h1 : A.drop ((A ++ B).length - n) = [] := by
    apply List.drop_eq_nil_of_le
    simp
    omega
  have h2 : (A ++ B).length - n - A.length = B.length - n := by
    simp
    omega
  rw [h1, h2, List.nil_append]

lemma lastN_append_of_ge {α : Type} {n : ℕ} (A B : List α) (h : B.length ≤ n) :
    lastN n (A ++ B) = lastN (n - B.length) A ++ B := by
  rw [lastN, lastN, List.drop_append_eq_append_drop]
  have h1 : (A ++ B).length - n - A.length = 0 := by
    simp
    omega
  have h2 : (A ++ B).length - n = A.length - (n - B.length) := by
    simp
    omega
  rw [h1, h2, List.drop_zero]

lemma lastN_append_lastN {α : Type} (n : ℕ) (A B : List α) :
    lastN n (lastN n A ++ B) = lastN n (A ++ B) := by
  by_cases hB : n ≤ B.length
  · rw [lastN_append_of_le _ _ hB, lastN_append_of_le _ _ hB]
  · push_neg at hB
    rw [lastN_append_of_ge _ _ hB.le, lastN_append_of_ge _ _ hB.le,
      lastN_lastN (Nat.sub_le n B.length) A]

lemma appendCap_eq_lastN {α : Type} (k : ℕ) (prev : List α) (s : α) :
    appendCap k prev s = lastN (k + 1) (prev ++ [s]) := by
  rw [appendCap, lastN, lastN, List.drop_append_eq_append_drop]
  have h1 : (prev ++ [s]).length - (k + 1) = prev.length - k := by
    simp
  have h2 : prev.length - k - prev.length = 0 := by
    omega
  rw [h1, h2, List.drop_zero]

lemma appendCap_length_le {α : Type} (k : ℕ) (prev : List α) (s : α) :
    (appendCap k prev s).length ≤ k + 1 := by
  rw [appendCap, List.length_append, List.length_cons, List.length_nil]
  have := lastN_length_le k prev
  omega

lemma foldl_appendCap {α : Type} (k : ℕ) :
    ∀ (l : List α) (init : List α), init.length ≤ k + 1 →
      List.foldl (appendCap k) init l = lastN (k + 1) (init ++ l) := by
  intro l
  induction l with
  | nil =>
    intro init hinit
    rw [List.foldl_nil, List.append_nil, lastN_of_le hinit]
  | cons a t ih =>
    intro init hinit
    rw [List.foldl_cons, ih _ (appendCap_length_le k init a), appendCap_eq_lastN,
      lastN_append_lastN, List.append_assoc, List.singleton_append]

lemma foldl_appendCap_of_length {α : Type} (k : ℕ) (init l : List α)
    (hl : k + 1 ≤ l.length) :
    List.foldl (appendCap k) init l = lastN (k + 1) l := by
  cases l with
  | nil => simp at hl
  | cons a t =>
    rw [List.foldl_cons, foldl_appendCap k t _ (appendCap_length_le k init a),
      appendCap_eq_lastN, lastN_append_lastN, List.append_assoc, List.singleton_append,
      lastN_append_of_le init (a :: t) hl]

lemma foldl_appendCap_length_le {α : Type} (k : ℕ) (l : List α) :
    (List.foldl (appendCap k) [] l).length ≤ k + 1 := by
  rw [foldl_appendCap k l [] (by simp), List.nil_append]
  exact lastN_length_le _ _

/-! ### Motion detectors

`isMoving` folds consecutive displacement distances over the last 5 stored
positions (`reduce` with the `idx === 0` arm contributing nothing) and divides
by `recentPositions.length - 1`. `isWaving` builds, per wrist and axis, the
list of absolute consecutive deltas (`map((pos, idx, arr) => idx === 0 ? 0 :
Math.abs(...)).slice(1)`, i.e. the deltas of consecutive pairs) and averages
it. Both are translated with Prop-valued results; `false` becomes `False`. -/

/-- Sum of consecutive Euclidean displacement distances, the value of the
`reduce` in `isMoving` (the `idx === 0` arm contributes nothing). -/
noncomputable def sumConsecDist : List Pt → ℝ
  | a :: b :: t => Real.sqrt ((b.x - a.x) ^ 2 + (b.y - a.y) ^ 2) + sumConsecDist (b :: t)
  | _ => 0

/-- `isMoving(currentPos)` from the source, with the `previousPositions` state
passed explicitly. The `currentPos` parameter is never read by the body. -/
noncomputable def isMoving (previousPositions : List Pt) (currentPos : Pt) : Prop :=
  if previousPositions.length < 5 then False
  else
    sumConsecDist (lastN 5 previousPositions) /
      (((lastN 5 previousPositions).length - 1 : ℕ) : ℝ) > 15

/-- The list of absolute consecutive deltas of `f` over a list: the value of
`map((pos, idx, arr) => idx === 0 ? 0 : Math.abs(f(pos) - f(arr[idx-1]))).slice(1)`
in `isWaving` (the mapped `0` at index 0 is dropped by `slice(1)`). -/
noncomputable def consecAbsDeltas {α : Type} (f : α → ℝ) : List α → List ℝ
  | a :: b :: t => |f b - f a| :: consecAbsDeltas f (b :: t)
  | _ => []

/-- `list.reduce((sum, val) => sum + val, 0) / list.length`. -/
noncomputable def avgOf (l : List ℝ) : ℝ :=
  l.sum / (l.length : ℝ)

/-- `isWaving(wristHistory)` from the source. -/
noncomputable def isWaving (wristHistory : List WristPair) : Prop :=
  if wristHistory.length < 10 then False
  else
    (avgOf (consecAbsDeltas (fun p => p.left.x) (lastN 10 wristHistory)) > 20 ∧
      avgOf (consecAbsDeltas (fun p => p.left.x) (lastN 10 wristHistory)) >
        2 * avgOf (consecAbsDeltas (fun p => p.left.y) (lastN 10 wristHistory))) ∨
    (avgOf (consecAbsDeltas (fun p => p.right.x) (lastN 10 wristHistory)) > 20 ∧
      avgOf (consecAbsDeltas (fun p => p.right.x) (lastN 10 wristHistory)) >
        2 * avgOf (consecAbsDeltas (fun p => p.right.y) (lastN 10 wristHistory)))

lemma consecAbsDeltas_length {α : Type} (f : α → ℝ) :
    ∀ l : List α, (consecAbsDeltas f l).length = l.length - 1 := by
  intro l
  induction l with
  | nil => simp [consecAbsDeltas]
  | cons a t ih =>
    cases t with
    | nil => simp [consecAbsDeltas]
    | cons b t2 =>
      rw [consecAbsDeltas, List.length_cons, ih]
      simp

/-! ### Activity classifier

`determineActivity` first extracts the 13 named keypoints, returning `"Stable"`
when the frame is empty or any of them is `undefined` (scores are never
consulted). Otherwise it evaluates the posture rules in source order. The
source computes the angles, distances and ratios in `const` bindings before
the rule chain; being pure, they are inlined into the rule predicates here.

The ratio comparisons need care: in JavaScript, when `totalHeight` is `0`
(which forces `shoulderHipDist = hipKneeDist = 0`, every distance being a
non-negative square root), `shoulderHipRatio` and `hipKneeRatio` are `0/0 =
NaN`, and every `<` / `>` comparison against `NaN` is `false`. `ratioLt` and
`ratioGt` reproduce exactly this: the source comparison when the denominator
is non-zero, and `False` when it is zero. -/

/-- `num / den < bound` as JavaScript evaluates it in this classifier: when
`den = 0` the division yields `NaN` (`num` is then also `0` for the ratios
used here) and the comparison is `false`. -/
def ratioLt (num den bound : ℝ) : Prop :=
  den ≠ 0 ∧ num / den < bound

/-- `num / den > bound` as JavaScript evaluates it in this classifier; see
`ratioLt`. -/
def ratioGt (num den bound : ℝ) : Prop :=
  den ≠ 0 ∧ num / den > bound

/-- `shoulderHipDist`: average of the two shoulder-to-hip distances. -/
noncomputable def shoulderHipDistOf (ls rs lh rh : Keypoint) : ℝ :=
  (calculateDistance ls lh + calculateDistance rs rh) / 2

/-- `hipKneeDist`: average of the two hip-to-knee distances. -/
noncomputable def hipKneeDistOf (lh rh lk rk : Keypoint) : ℝ :=
  (calculateDistance lh lk + calculateDistance rh rk) / 2

/-- `kneeAnkleDist`: average of the two knee-to-ankle distances. -/
noncomputable def kneeAnkleDistOf (lk rk la ra : Keypoint) : ℝ :=
  (calculateDistance lk la + calculateDistance rk ra) / 2

/-- `totalHeight = shoulderHipDist + hipKneeDist + kneeAnkleDist`. -/
noncomputable def totalHeightOf (ls rs lh rh lk rk la ra : Keypoint) : ℝ :=
  shoulderHipDistOf ls rs lh rh + hipKneeDistOf lh rh lk rk + kneeAnkleDistOf lk rk la ra

/-- Rule 1, `Raising Hands`:
`leftWrist.y < leftShoulder.y - 50 && rightWrist.y < rightShoulder.y - 50`. -/
def raisingHandsCond (lw rw ls rs : Keypoint) : Prop :=
  lw.y < ls.y - 50 ∧ rw.y < rs.y - 50

/-- Rule 3, `isSquatting` from the source: bent knees, hip flexion, level
shoulders, and `nose.y > (leftShoulder.y + rightShoulder.y) / 2`. -/
noncomputable def squattingCond (nose ls rs lh rh lk rk la ra : Keypoint) : Prop :=
  calculateAngle lh lk la < 100 ∧ calculateAngle rh rk ra < 100 ∧
  calculateAngle ls lh lk > 45 ∧ calculateAngle rs rh rk > 45 ∧
  |ls.y - rs.y| < 30 ∧
  nose.y > (ls.y + rs.y) / 2

/-- Rule 4, `isSitting` from the source. -/
noncomputable def sittingCond (ls rs lh rh lk rk la ra : Keypoint) : Prop :=
  calculateAngle lh lk la < 120 ∧ calculateAngle rh rk ra < 120 ∧
  lh.y > lk.y - 20 ∧ rh.y > rk.y - 20 ∧
  ratioLt (shoulderHipDistOf ls rs lh rh) (totalHeightOf ls rs lh rh lk rk la ra) 0.4 ∧
  ratioGt (hipKneeDistOf lh rh lk rk) (totalHeightOf ls rs lh rh lk rk la ra) 0.3

/-- Rule 6, `isStanding` from the source. -/
noncomputable def standingCond (ls rs lh rh lk rk la ra : Keypoint) : Prop :=
  calculateAngle lh lk la > 160 ∧ calculateAngle rh rk ra > 160 ∧
  |ls.y - rs.y| < 30 ∧ |lh.y - rh.y| < 30 ∧ |lk.y - rk.y| < 30 ∧
  ratioGt (shoulderHipDistOf ls rs lh rh) (totalHeightOf ls rs lh rh lk rk la ra) 0.3 ∧
  ratioGt (hipKneeDistOf lh rh lk rk) (totalHeightOf ls rs lh rh lk rk la ra) 0.3

open Classical in
/-- The rule chain of `determineActivity` once the 13 keypoints are extracted,
in source order: Raising Hands, Waving, Squatting, Sitting, Movement,
Standing, Stable. -/
noncomputable def decideRules (nose ls rs le re lw rw lh rh lk rk la ra : Keypoint)
    (previousPositions : List Pt) (wristPositions : List WristPair) : String :=
  if raisingHandsCond lw rw ls rs then "Raising Hands"
  else if isWaving wristPositions then "Waving"
  else if squattingCond nose ls rs lh rh lk rk la ra then "Squatting"
  else if sittingCond ls rs lh rh lk rk la ra then "Sitting"
  else if isMoving previousPositions ⟨nose.x, nose.y⟩ then "Movement"
  else if standingCond ls rs lh rh lk rk la ra then "Standing"
  else "Stable"

/-- `keypoints.find((kp) => kp.name === name)`. -/
def findKeypoint (keypoints : List Keypoint) (n : String) : Option Keypoint :=
  keypoints.find? (fun kp => kp.name == n)

/-- `determineActivity(keypoints)` from the source, with the two history
states passed explicitly. Returns `"Stable"` when the frame is empty or any
of the 13 required keypoints is absent; otherwise runs the rule chain. -/
noncomputable def determineActivity (keypoints : List Keypoint)
    (previousPositions : List Pt) (wristPositions : List WristPair) : String :=
  if keypoints.isEmpty then "Stable"
  else
    match findKeypoint keypoints ("nose"), findKeypoint keypoints ("left_shoulder"),
      findKeypoint keypoints ("right_shoulder"), findKeypoint keypoints ("left_elbow"),
      findKeypoint keypoints ("right_elbow"), findKeypoint keypoints ("left_wrist"),
      findKeypoint keypoints ("right_wrist"), findKeypoint keypoints ("left_hip"),
      findKeypoint keypoints ("right_hip"), findKeypoint keypoints ("left_knee"),
      findKeypoint keypoints ("right_knee"), findKeypoint keypoints ("left_ankle"),
      findKeypoint keypoints ("right_ankle") with
    | some nose, some ls, some rs, some le, some re, some lw, some rw,
      some lh, some rh, some lk, some rk, some la, some ra =>
        decideRules nose ls rs le re lw rw lh rh lk rk la ra
          previousPositions wristPositions
    | _, _, _, _, _, _, _, _, _, _, _, _, _ => "Stable"

/-- One classification cycle of `detectPose` after a pose with sufficient
score was obtained: classify the frame, then append the nose position to
`previousPositions` when the nose keypoint is present and the wrist pair to
`wristPositions` when both wrists are present — unconditionally on the label
returned. Returns the label and the two updated histories. -/
noncomputable def processFrame (keypoints : List Keypoint)
    (previousPositions : List Pt) (wristPositions : List WristPair) :
    String × List Pt × List WristPair :=
  (determineActivity keypoints previousPositions wristPositions,
    match findKeypoint keypoints ("nose") with
    | some nose => appendPos previousPositions ⟨nose.x, nose.y⟩
    | none => previousPositions,
    match findKeypoint keypoints ("left_wrist"), findKeypoint keypoints ("right_wrist") with
    | some lw, some rw => appendWrist wristPositions ⟨⟨lw.x, lw.y⟩, ⟨rw.x, rw.y⟩⟩
    | _, _ => wristPositions)

/-! ### Spec-side comparison definitions

These follow the specification's words, for comparison against the source
translation above. -/

/-- Following the spec's words: "If `totalHeight` is zero … treat both ratios
as zero to avoid division error"; otherwise the ratio is the plain quotient. -/
noncomputable def ratioOrZero (num den : ℝ) : ℝ :=
  if den = 0 then 0 else num / den

/-- `isSitting` with the ratio comparisons taken on `ratioOrZero`, per the
spec's degenerate-geometry rule. -/
noncomputable def sittingCondZero (ls rs lh rh lk rk la ra : Keypoint) : Prop :=
  calculateAngle lh lk la < 120 ∧ calculateAngle rh rk ra < 120 ∧
  lh.y > lk.y - 20 ∧ rh.y > rk.y - 20 ∧
  ratioOrZero (shoulderHipDistOf ls rs lh rh) (totalHeightOf ls rs lh rh lk rk la ra) < 0.4 ∧
  ratioOrZero (hipKneeDistOf lh rh lk rk) (totalHeightOf ls rs lh rh lk rk la ra) > 0.3

/-- `isStanding` with the ratio comparisons taken on `ratioOrZero`, per the
spec's degenerate-geometry rule. -/
noncomputable def standingCondZero (ls rs lh rh lk rk la ra : Keypoint) : Prop :=
  calculateAngle lh lk la > 160 ∧ calculateAngle rh rk ra > 160 ∧
  |ls.y - rs.y| < 30 ∧ |lh.y - rh.y| < 30 ∧ |lk.y - rk.y| < 30 ∧
  ratioOrZero (shoulderHipDistOf ls rs lh rh) (totalHeightOf ls rs lh rh lk rk la ra) > 0.3 ∧
  ratioOrZero (hipKneeDistOf lh rh lk rk) (totalHeightOf ls rs lh rh lk rk la ra) > 0.3

open Classical in
/-- The rule chain with both height ratios treated as zero on degenerate
geometry, following the spec's words; identical to `decideRules` elsewhere. -/
noncomputable def decideRulesRatiosZero (nose ls rs le re lw rw lh rh lk rk la ra : Keypoint)
    (previousPositions : List Pt) (wristPositions : List WristPair) : String :=
  if raisingHandsCond lw rw ls rs then "Raising Hands"
  else if isWaving wristPositions then "Waving"
  else if squattingCond nose ls rs lh rh lk rk la ra then "Squatting"
  else if sittingCondZero ls rs lh rh lk rk la ra then "Sitting"
  else if isMoving previousPositions ⟨nose.x, nose.y⟩ then "Movement"
  else if standingCondZero ls rs lh rh lk rk la ra then "Standing"
  else "Stable"

/-- Following the spec's words for `isWaving`: a side's average absolute
consecutive delta of `f`, "9 values averaged", over a 10-sample window. -/
noncomputable def specAvgAbsDelta {α : Type} (f : α → ℝ) (window : List α) : ℝ :=
  (consecAbsDeltas f window).sum / 9

/-- Following the spec's words: a side is waving iff its average horizontal
delta exceeds 20 and exceeds twice its average vertical delta. -/
noncomputable def specSideWaving (fx fy : WristPair → ℝ) (window : List WristPair) : Prop :=
  specAvgAbsDelta fx window > 20 ∧
  specAvgAbsDelta fx window > 2 * specAvgAbsDelta fy window

/-- Following the spec's words for `isMoving`: the average of the 4
consecutive-pair displacement distances over a 5-sample window. -/
noncomputable def specAvgDisplacement (window : List Pt) : ℝ :=
  sumConsecDist window / 4

/-- Shared helper: an empty frame, or one with any of the 13 required
keypoints absent, classifies as `"Stable"`. -/
lemma determineActivity_of_missing (keypoints : List Keypoint)
    (previousPositions : List Pt) (wristPositions : List WristPair)
    (h : keypoints = [] ∨
      findKeypoint keypoints ("nose") = none ∨
      findKeypoint keypoints ("left_shoulder") = none ∨
      findKeypoint keypoints ("right_shoulder") = none ∨
      findKeypoint keypoints ("left_elbow") = none ∨
      findKeypoint keypoints ("right_elbow") = none ∨
      findKeypoint keypoints ("left_wrist") = none ∨
      findKeypoint keypoints ("right_wrist") = none ∨
      findKeypoint keypoints ("left_hip") = none ∨
      findKeypoint keypoints ("right_hip") = none ∨
      findKeypoint keypoints ("left_knee") = none ∨
      findKeypoint keypoints ("right_knee") = none ∨
      findKeypoint keypoints ("left_ankle") = none ∨
      findKeypoint keypoints ("right_ankle") = none) :
    determineActivity keypoints previousPositions wristPositions = "Stable" := by
  rcases h with h | h
  · subst h
    rfl
  all_goals
    unfold determineActivity
    split
    · rfl
    · split
      · rename_i heq
        simp_all
      · rfl

/-! ### A concrete squatting frame (claim C1)

An upright squat: knee and hip angles of 90°, level shoulders, nose above the
shoulder midpoint (smaller `y`), wrists well below the raising-hands
threshold. All keypoint scores are `1`. -/

def sqNose : Keypoint := mkKp ("nose") 100 (-10) 1

def sqLS : Keypoint := mkKp ("left_shoulder") 0 0 1

def sqRS : Keypoint := mkKp ("right_shoulder") 200 0 1

def sqLE : Keypoint := mkKp ("left_elbow") 0 30 1

def sqRE : Keypoint := mkKp ("right_elbow") 200 30 1

def sqLW : Keypoint := mkKp ("left_wrist") 0 60 1

def sqRW : Keypoint := mkKp ("right_wrist") 200 60 1

def sqLH : Keypoint := mkKp ("left_hip") 0 100 1

def sqRH : Keypoint := mkKp ("right_hip") 200 100 1

def sqLK : Keypoint := mkKp ("left_knee") 50 100 1

def sqRK : Keypoint := mkKp ("right_knee") 150 100 1

def sqLA : Keypoint := mkKp ("left_ankle") 50 150 1

def sqRA : Keypoint := mkKp ("right_ankle") 150 150 1

def squatFrame : List Keypoint :=
  [sqNose, sqLS, sqRS, sqLE, sqRE, sqLW, sqRW, sqLH, sqRH, sqLK, sqRK, sqLA, sqRA]

lemma sq_left_knee_angle : calculateAngle sqLH sqLK sqLA = 90 := by
  have h3 : atan2 (sqLA.y - sqLK.y) (sqLA.x - sqLK.x) = Real.pi / 2 := by
    have hy : sqLA.y - sqLK.y = 50 := by norm_num [sqLA, sqLK]
    have hx : sqLA.x - sqLK.x = 0 := by norm_num [sqLA, sqLK]
    rw [hy, hx]
    exact atan2_pos_zero (by norm_num)
  have h1 : atan2 (sqLH.y - sqLK.y) (sqLH.x - sqLK.x) = Real.pi := by
    have hy : sqLH.y - sqLK.y = 0 := by norm_num [sqLH, sqLK]
    have hx : sqLH.x - sqLK.x = -50 := by norm_num [sqLH, sqLK]
    rw [hy, hx]
    exact atan2_zero_neg (by norm_num)
  refine calculateAngle_eval _ _ _ _ _ 90 h3 h1 ?_ (by norm_num)
  have hv : (Real.pi / 2 - Real.pi) * 180 / Real.pi = -90 := by
    field_simp
    ring
  rw [hv, abs_of_nonpos (by norm_num)]
  norm_num

lemma sq_right_knee_angle : calculateAngle sqRH sqRK sqRA = 90 := by
  have h3 : atan2 (sqRA.y - sqRK.y) (sqRA.x - sqRK.x) = Real.pi / 2 := by
    have hy : sqRA.y - sqRK.y = 50 := by norm_num [sqRA, sqRK]
    have hx : sqRA.x - sqRK.x = 0 := by norm_num [sqRA, sqRK]
    rw [hy, hx]
    exact atan2_pos_zero (by norm_num)
  have h1 : atan2 (sqRH.y - sqRK.y) (sqRH.x - sqRK.x) = 0 := by
    have hy : sqRH.y - sqRK.y = 0 := by norm_num [sqRH, sqRK]
    have hx : sqRH.x - sqRK.x = 50 := by norm_num [sqRH, sqRK]
    rw [hy, hx]
    exact atan2_zero_pos (by norm_num)
  refine calculateAngle_eval _ _ _ _ _ 90 h3 h1 ?_ (by norm_num)
  have hv : (Real.pi / 2 - 0) * 180 / Real.pi = 90 := by
    field_simp
    ring
  rw [hv, abs_of_nonneg (by norm_num)]

lemma sq_left_hip_angle : calculateAngle sqLS sqLH sqLK = 90 := by
  have h3 : atan2 (sqLK.y - sqLH.y) (sqLK.x - sqLH.x) = 0 := by
    have hy : sqLK.y - sqLH.y = 0 := by norm_num [sqLK, sqLH]
    have hx : sqLK.x - sqLH.x = 50 := by norm_num [sqLK, sqLH]
    rw [hy, hx]
    exact atan2_zero_pos (by norm_num)
  have h1 : atan2 (sqLS.y - sqLH.y) (sqLS.x - sqLH.x) = -(Real.pi / 2) := by
    have hy : sqLS.y - sqLH.y = -100 := by norm_num [sqLS, sqLH]
    have hx : sqLS.x - sqLH.x = 0 := by norm_num [sqLS, sqLH]
    rw [hy, hx]
    exact atan2_neg_zero (by norm_num)
  refine calculateAngle_eval _ _ _ _ _ 90 h3 h1 ?_ (by norm_num)
  have hv : (0 - -(Real.pi / 2)) * 180 / Real.pi = 90 := by
    field_simp
    ring
  rw [hv, abs_of_nonneg (by norm_num)]

lemma sq_right_hip_angle : calculateAngle sqRS sqRH sqRK = 90 := by
  have h3 : atan2 (sqRK.y - sqRH.y) (sqRK.x - sqRH.x) = Real.pi := by
    have hy : sqRK.y - sqRH.y = 0 := by norm_num [sqRK, sqRH]
    have hx : sqRK.x - sqRH.x = -50 := by norm_num [sqRK, sqRH]
    rw [hy, hx]
    exact atan2_zero_neg (by norm_num)
  have h1 : atan2 (sqRS.y - sqRH.y) (sqRS.x - sqRH.x) = -(Real.pi / 2) := by
    have hy : sqRS.y - sqRH.y = -100 := by norm_num [sqRS, sqRH]
    have hx : sqRS.x - sqRH.x = 0 := by norm_num [sqRS, sqRH]
    rw [hy, hx]
    exact atan2_neg_zero (by norm_num)
  have h := calculateAngle_eval_reflect _ _ _ _ _ 270 h3 h1 ?_ (by norm_num)
  · rw [h]
    norm_num
  · have hv : (Real.pi - -(Real.pi / 2)) * 180 / Real.pi = 270 := by
      field_simp
      ring
    rw [hv, abs_of_nonneg (by norm_num)]

/-- Claim C1: the frame `squatFrame` has both knee angles below 100°, both hip
angles above 45°, level shoulders, and the nose vertically above the shoulder
midpoint (numerically smaller `y`), and matches neither the Raising Hands rule
nor the Waving rule — yet the classifier returns `"Stable"`, not
`"Squatting"`: the source requires `nose.y > (leftShoulder.y +
rightShoulder.y) / 2`, i.e. the nose *below* the shoulder midpoint in image
coordinates, contradicting its own comment on that line. -/
theorem squatting_rule_rejects_nose_above_shoulders :
    calculateAngle sqLH sqLK sqLA < 100 ∧ calculateAngle sqRH sqRK sqRA < 100 ∧
    calculateAngle sqLS sqLH sqLK > 45 ∧ calculateAngle sqRS sqRH sqRK > 45 ∧
    |sqLS.y - sqRS.y| < 30 ∧ sqNose.y < (sqLS.y + sqRS.y) / 2 ∧
    ¬ raisingHandsCond sqLW sqRW sqLS sqRS ∧ ¬ isWaving [] ∧
    determineActivity squatFrame [] [] = "Stable" := by
  have hRH : ¬ raisingHandsCond sqLW sqRW sqLS sqRS := by
    intro h
    have h1 := h.1
    norm_num [sqLW, sqLS] at h1
  have hWav : ¬ isWaving [] := by
    simp [isWaving]
  have hSquat : ¬ squattingCond sqNose sqLS sqRS sqLH sqRH sqLK sqRK sqLA sqRA := by
    intro h
    have h6 := h.2.2.2.2.2
    norm_num [sqNose, sqLS, sqRS] at h6
  have d1 : calculateDistance sqLS sqLH = 100 :=
    calculateDistance_eval _ _ 100 (by norm_num) (by norm_num [sqLS, sqLH])
  have d2 : calculateDistance sqRS sqRH = 100 :=
    calculateDistance_eval _ _ 100 (by norm_num) (by norm_num [sqRS, sqRH])
  have d3 : calculateDistance sqLH sqLK = 50 :=
    calculateDistance_eval _ _ 50 (by norm_num) (by norm_num [sqLH, sqLK])
  have d4 : calculateDistance sqRH sqRK = 50 :=
    calculateDistance_eval _ _ 50 (by norm_num) (by norm_num [sqRH, sqRK])
  have d5 : calculateDistance sqLK sqLA = 50 :=
    calculateDistance_eval _ _ 50 (by norm_num) (by norm_num [sqLK, sqLA])
  have d6 : calculateDistance sqRK sqRA = 50 :=
    calculateDistance_eval _ _ 50 (by norm_num) (by norm_num [sqRK, sqRA])
  have hSH : shoulderHipDistOf sqLS sqRS sqLH sqRH = 100 := by
    rw [shoulderHipDistOf, d1, d2]
    norm_num
  have hHK : hipKneeDistOf sqLH sqRH sqLK sqRK = 50 := by
    rw [hipKneeDistOf, d3, d4]
    norm_num
  have hKA : kneeAnkleDistOf sqLK sqRK sqLA sqRA = 50 := by
    rw [kneeAnkleDistOf, d5, d6]
    norm_num
  have hTH : totalHeightOf sqLS sqRS sqLH sqRH sqLK sqRK sqLA sqRA = 200 := by
    rw [totalHeightOf, hSH, hHK, hKA]
    norm_num
  have hSit : ¬ sittingCond sqLS sqRS sqLH sqRH sqLK sqRK sqLA sqRA := by
    intro h
    have h5 := h.2.2.2.2.1
    rw [ratioLt, hSH, hTH] at h5
    have := h5.2
    norm_num at this
  have hMov : ¬ isMoving [] ⟨sqNose.x, sqNose.y⟩ := by
    simp [isMoving]
  have hStand : ¬ standingCond sqLS sqRS sqLH sqRH sqLK sqRK sqLA sqRA := by
    intro h
    have h1 := h.1
    rw [sq_left_knee_angle] at h1
    norm_num at h1
  refine ⟨by rw [sq_left_knee_angle]; norm_num, by rw [sq_right_knee_angle]; norm_num,
    by rw [sq_left_hip_angle]; norm_num, by rw [sq_right_hip_angle]; norm_num,
    by norm_num [sqLS, sqRS], by norm_num [sqNose, sqLS, sqRS], hRH, hWav, ?_⟩
  have hred : determineActivity squatFrame [] [] =
      decideRules sqNose sqLS sqRS sqLE sqRE sqLW sqRW sqLH sqRH sqLK sqRK sqLA sqRA [] [] :=
    rfl
  rw [hred]
  unfold decideRules
  rw [if_neg hRH, if_neg hWav, if_neg hSquat, if_neg hSit, if_neg hMov, if_neg hStand]

/-- The squat frame with the `right_ankle` keypoint absent: rejected by the
keypoint-presence check, while nose and both wrists are still present. -/
def missFrame : List Keypoint :=
  [sqNose, sqLS, sqRS, sqLE, sqRE, sqLW, sqRW, sqLH, sqRH, sqLK, sqRK, sqLA]

/-- Claim C2 (counterexample): the frame `missFrame` is rejected for its
missing `right_ankle` and classifies as `"Stable"`, yet the cycle appends the
nose position to the position history and the wrist pair to the wrist history
— the buffers do not stay unchanged. -/
theorem rejected_frame_still_mutates_history :
    (processFrame missFrame [] []).1 = "Stable" ∧
    (processFrame missFrame [] []).2.1 = [⟨100, -10⟩] ∧
    (processFrame missFrame [] []).2.2 = [⟨⟨0, 60⟩, ⟨200, 60⟩⟩] :=
  ⟨rfl, rfl, rfl⟩

/-- Claim C2 (amended): a frame whose `right_ankle` is missing classifies as
`"Stable"`, but the cycle still appends to both buffers whenever the nose and
the two wrists are present; the histories are unchanged only when those
keypoints are themselves absent. -/
theorem rejected_frame_appends_present_keypoints (kps : List Keypoint)
    (hp : List Pt) (hw : List WristPair) (nose lw rw : Keypoint)
    (hra : findKeypoint kps ("right_ankle") = none)
    (hn : findKeypoint kps ("nose") = some nose)
    (hlw : findKeypoint kps ("left_wrist") = some lw)
    (hrw : findKeypoint kps ("right_wrist") = some rw) :
    processFrame kps hp hw =
      ("Stable", appendPos hp ⟨nose.x, nose.y⟩,
        appendWrist hw ⟨⟨lw.x, lw.y⟩, ⟨rw.x, rw.y⟩⟩) := by
  have hact := determineActivity_of_missing kps hp hw
    (Or.inr (Or.inr (Or.inr (Or.inr (Or.inr (Or.inr (Or.inr (Or.inr (Or.inr
      (Or.inr (Or.inr (Or.inr (Or.inr hra)))))))))))))
  unfold processFrame
  rw [hact, hn, hlw, hrw]

/-- Witness for `rejected_frame_appends_present_keypoints` at `missFrame`. -/
theorem rejected_frame_appends_present_keypoints_witness :
    processFrame missFrame [] [] =
      ("Stable", appendPos [] ⟨sqNose.x, sqNose.y⟩,
        appendWrist [] ⟨⟨sqLW.x, sqLW.y⟩, ⟨sqRW.x, sqRW.y⟩⟩) :=
  rejected_frame_appends_present_keypoints missFrame [] [] sqNose sqLW sqRW rfl rfl rfl rfl

/-- Claim C3 (amended): an empty frame, or one missing any of the 13 required
keypoints, immediately classifies as `"Stable"`; keypoint confidence scores
play no part in this check. -/
theorem classify_missing_keypoint_stable (kps : List Keypoint)
    (hp : List Pt) (hw : List WristPair)
    (h : kps = [] ∨
      findKeypoint kps ("nose") = none ∨
      findKeypoint kps ("left_shoulder") = none ∨
      findKeypoint kps ("right_shoulder") = none ∨
      findKeypoint kps ("left_elbow") = none ∨
      findKeypoint kps ("right_elbow") = none ∨
      findKeypoint kps ("left_wrist") = none ∨
      findKeypoint kps ("right_wrist") = none ∨
      findKeypoint kps ("left_hip") = none ∨
      findKeypoint kps ("right_hip") = none ∨
      findKeypoint kps ("left_knee") = none ∨
      findKeypoint kps ("right_knee") = none ∨
      findKeypoint kps ("left_ankle") = none ∨
      findKeypoint kps ("right_ankle") = none) :
    determineActivity kps hp hw = "Stable" :=
  determineActivity_of_missing kps hp hw h

/-- Witness for `classify_missing_keypoint_stable` at `missFrame`. -/
theorem classify_missing_keypoint_stable_witness :
    determineActivity missFrame [] [] = "Stable" :=
  classify_missing_keypoint_stable missFrame [] []
    (Or.inr (Or.inr (Or.inr (Or.inr (Or.inr (Or.inr (Or.inr (Or.inr (Or.inr
      (Or.inr (Or.inr (Or.inr (Or.inr rfl)))))))))))))

/-! ### A concrete frame satisfying both Raising Hands and Standing

Straight vertical legs (knee angles 180°), equal 100-unit segments
(both height ratios 1/3), level shoulders/hips/knees, and both wrists 60
units above the shoulders. The keypoint score is a parameter: claim C5 uses
score `0.9`, claim C3's counterexample score `0`. -/

def stNose (sc : ℝ) : Keypoint := mkKp ("nose") 50 (-80) sc

def stLS (sc : ℝ) : Keypoint := mkKp ("left_shoulder") 0 0 sc

def stRS (sc : ℝ) : Keypoint := mkKp ("right_shoulder") 100 0 sc

def stLE (sc : ℝ) : Keypoint := mkKp ("left_elbow") 0 (-30) sc

def stRE (sc : ℝ) : Keypoint := mkKp ("right_elbow") 100 (-30) sc

def stLW (sc : ℝ) : Keypoint := mkKp ("left_wrist") 0 (-60) sc

def stRW (sc : ℝ) : Keypoint := mkKp ("right_wrist") 100 (-60) sc

def stLH (sc : ℝ) : Keypoint := mkKp ("left_hip") 0 100 sc

def stRH (sc : ℝ) : Keypoint := mkKp ("right_hip") 100 100 sc

def stLK (sc : ℝ) : Keypoint := mkKp ("left_knee") 0 200 sc

def stRK (sc : ℝ) : Keypoint := mkKp ("right_knee") 100 200 sc

def stLA (sc : ℝ) : Keypoint := mkKp ("left_ankle") 0 300 sc

def stRA (sc : ℝ) : Keypoint := mkKp ("right_ankle") 100 300 sc

def standFrame (sc : ℝ) : List Keypoint :=
  [stNose sc, stLS sc, stRS sc, stLE sc, stRE sc, stLW sc, stRW sc,
    stLH sc, stRH sc, stLK sc, stRK sc, stLA sc, stRA sc]

/-- The raising-hands frame with every keypoint confidence score equal to 0. -/
def lowScoreFrame : List Keypoint := standFrame 0

lemma st_left_knee_angle (sc : ℝ) : calculateAngle (stLH sc) (stLK sc) (stLA sc) = 180 := by
  have h3 : atan2 ((stLA sc).y - (stLK sc).y) ((stLA sc).x - (stLK sc).x) = Real.pi / 2 := by
    have hy : (stLA sc).y - (stLK sc).y = 100 := by norm_num [stLA, stLK]
    have hx : (stLA sc).x - (stLK sc).x = 0 := by norm_num [stLA, stLK]
    rw [hy, hx]
    exact atan2_pos_zero (by norm_num)
  have h1 : atan2 ((stLH sc).y - (stLK sc).y) ((stLH sc).x - (stLK sc).x) = -(Real.pi / 2) := by
    have hy : (stLH sc).y - (stLK sc).y = -100 := by norm_num [stLH, stLK]
    have hx : (stLH sc).x - (stLK sc).x = 0 := by norm_num [stLH, stLK]
    rw [hy, hx]
    exact atan2_neg_zero (by norm_num)
  refine calculateAngle_eval _ _ _ _ _ 180 h3 h1 ?_ (by norm_num)
  have hv : (Real.pi / 2 - -(Real.pi / 2)) * 180 / Real.pi = 180 := by
    field_simp
  rw [hv, abs_of_nonneg (by norm_num)]

lemma st_right_knee_angle (sc : ℝ) : calculateAngle (stRH sc) (stRK sc) (stRA sc) = 180 := by
  have h3 : atan2 ((stRA sc).y - (stRK sc).y) ((stRA sc).x - (stRK sc).x) = Real.pi / 2 := by
    have hy : (stRA sc).y - (stRK sc).y = 100 := by norm_num [stRA, stRK]
    have hx : (stRA sc).x - (stRK sc).x = 0 := by norm_num [stRA, stRK]
    rw [hy, hx]
    exact atan2_pos_zero (by norm_num)
  have h1 : atan2 ((stRH sc).y - (stRK sc).y) ((stRH sc).x - (stRK sc).x) = -(Real.pi / 2) := by
    have hy : (stRH sc).y - (stRK sc).y = -100 := by norm_num [stRH, stRK]
    have hx : (stRH sc).x - (stRK sc).x = 0 := by norm_num [stRH, stRK]
    rw [hy, hx]
    exact atan2_neg_zero (by norm_num)
  refine calculateAngle_eval _ _ _ _ _ 180 h3 h1 ?_ (by norm_num)
  have hv : (Real.pi / 2 - -(Real.pi / 2)) * 180 / Real.pi = 180 := by
    field_simp
  rw [hv, abs_of_nonneg (by norm_num)]

lemma st_raising_hands (sc : ℝ) : raisingHandsCond (stLW sc) (stRW sc) (stLS sc) (stRS sc) := by
  constructor
  · norm_num [stLW, stLS]
  · norm_num [stRW, stRS]

lemma st_standing (sc : ℝ) :
    standingCond (stLS sc) (stRS sc) (stLH sc) (stRH sc) (stLK sc) (stRK sc)
      (stLA sc) (stRA sc) := by
  have d1 : calculateDistance (stLS sc) (stLH sc) = 100 :=
    calculateDistance_eval _ _ 100 (by norm_num) (by norm_num [stLS, stLH])
  have d2 : calculateDistance (stRS sc) (stRH sc) = 100 :=
    calculateDistance_eval _ _ 100 (by norm_num) (by norm_num [stRS, stRH])
  have d3 : calculateDistance (stLH sc) (stLK sc) = 100 :=
    calculateDistance_eval _ _ 100 (by norm_num) (by norm_num [stLH, stLK])
  have d4 : calculateDistance (stRH sc) (stRK sc) = 100 :=
    calculateDistance_eval _ _ 100 (by norm_num) (by norm_num [stRH, stRK])
  have d5 : calculateDistance (stLK sc) (stLA sc) = 100 :=
    calculateDistance_eval _ _ 100 (by norm_num) (by norm_num [stLK, stLA])
  have d6 : calculateDistance (stRK sc) (stRA sc) = 100 :=
    calculateDistance_eval _ _ 100 (by norm_num) (by norm_num [stRK, stRA])
  have hSH : shoulderHipDistOf (stLS sc) (stRS sc) (stLH sc) (stRH sc) = 100 := by
    rw [shoulderHipDistOf, d1, d2]
    norm_num
  have hHK : hipKneeDistOf (stLH sc) (stRH sc) (stLK sc) (stRK sc) = 100 := by
    rw [hipKneeDistOf, d3, d4]
    norm_num
  have hKA : kneeAnkleDistOf (stLK sc) (stRK sc) (stLA sc) (stRA sc) = 100 := by
    rw [kneeAnkleDistOf, d5, d6]
    norm_num
  have hTH : totalHeightOf (stLS sc) (stRS sc) (stLH sc) (stRH sc) (stLK sc) (stRK sc)
      (stLA sc) (stRA sc) = 300 := by
    rw [totalHeightOf, hSH, hHK, hKA]
    norm_num
  refine ⟨by rw [st_left_knee_angle]; norm_num, by rw [st_right_knee_angle]; norm_num,
    by norm_num [stLS, stRS], by norm_num [stLH, stRH], by norm_num [stLK, stRK], ?_, ?_⟩
  · rw [ratioGt, hSH, hTH]
    norm_num
  · rw [ratioGt, hHK, hTH]
    norm_num

/-- Claim C3 (counterexample): every keypoint of `lowScoreFrame` has
confidence score `0` — below any usability threshold — yet the classifier
does not return `"Stable"`: it never consults scores and classifies the frame
as `"Raising Hands"`. -/
theorem low_scores_do_not_force_stable :
    lowScoreFrame.map Keypoint.score = List.replicate 13 0 ∧
    determineActivity lowScoreFrame [] [] = "Raising Hands" := by
  constructor
  · rfl
  · have hred : determineActivity lowScoreFrame [] [] =
        decideRules (stNose 0) (stLS 0) (stRS 0) (stLE 0) (stRE 0) (stLW 0) (stRW 0)
          (stLH 0) (stRH 0) (stLK 0) (stRK 0) (stLA 0) (stRA 0) [] [] :=
      rfl
    rw [hred]
    unfold decideRules
    rw [if_pos (st_raising_hands 0)]

/-- Claim C5: whenever the extracted keypoints satisfy both the Raising Hands
condition and the Standing condition, `determineActivity` returns
`"Raising Hands"`: rule 1 is evaluated before rule 6 in the fixed priority
order Raising Hands, Waving, Squatting, Sitting, Movement, Standing, Stable,
and the first match wins. -/
theorem raising_hands_beats_standing (kps : List Keypoint)
    (hp : List Pt) (hw : List WristPair)
    (nose ls rs le re lw rw lh rh lk rk la ra : Keypoint)
    (hn : findKeypoint kps ("nose") = some nose)
    (hls : findKeypoint kps ("left_shoulder") = some ls)
    (hrs : findKeypoint kps ("right_shoulder") = some rs)
    (hle : findKeypoint kps ("left_elbow") = some le)
    (hre : findKeypoint kps ("right_elbow") = some re)
    (hlw : findKeypoint kps ("left_wrist") = some lw)
    (hrw : findKeypoint kps ("right_wrist") = some rw)
    (hlh : findKeypoint kps ("left_hip") = some lh)
    (hrh : findKeypoint kps ("right_hip") = some rh)
    (hlk : findKeypoint kps ("left_knee") = some lk)
    (hrk : findKeypoint kps ("right_knee") = some rk)
    (hla : findKeypoint kps ("left_ankle") = some la)
    (hra : findKeypoint kps ("right_ankle") = some ra)
    (hRH : raisingHandsCond lw rw ls rs)
    (hStand : standingCond ls rs lh rh lk rk la ra) :
    determineActivity kps hp hw = "Raising Hands" := by
  have hne : kps.isEmpty = false := by
    cases kps
    · simp [findKeypoint] at hn
    · rfl
  unfold determineActivity
  rw [hne, hn, hls, hrs, hle, hre, hlw, hrw, hlh, hrh, hlk, hrk, hla, hra,
    if_neg Bool.false_ne_true]
  show decideRules nose ls rs le re lw rw lh rh lk rk la ra hp hw = "Raising Hands"
  unfold decideRules
  rw [if_pos hRH]

/-- Witness for `raising_hands_beats_standing`: the frame `standFrame 0.9`
satisfies both rules' geometry and classifies as `"Raising Hands"`. -/
theorem raising_hands_beats_standing_witness :
    determineActivity (standFrame 0.9) [] [] = "Raising Hands" :=
  raising_hands_beats_standing (standFrame 0.9) [] []
    (stNose 0.9) (stLS 0.9) (stRS 0.9) (stLE 0.9) (stRE 0.9) (stLW 0.9) (stRW 0.9)
    (stLH 0.9) (stRH 0.9) (stLK 0.9) (stRK 0.9) (stLA 0.9) (stRA 0.9)
    rfl rfl rfl rfl rfl rfl rfl rfl rfl rfl rfl rfl rfl
    (st_raising_hands 0.9) (st_standing 0.9)

/-- Claim C4: on degenerate geometry — `totalHeight = 0` — the classifier's
label is exactly the label obtained by treating both height ratios as zero:
the `NaN` that JavaScript produces for `0/0` makes every ratio comparison
false, which coincides with the treat-as-zero reading on every rule, so no
`NaN` or division error reaches the classification. -/
theorem zero_total_height_matches_ratio_zero_rules
    (nose ls rs le re lw rw lh rh lk rk la ra : Keypoint)
    (hp : List Pt) (hw : List WristPair)
    (hTH : totalHeightOf ls rs lh rh lk rk la ra = 0) :
    decideRules nose ls rs le re lw rw lh rh lk rk la ra hp hw =
      decideRulesRatiosZero nose ls rs le re lw rw lh rh lk rk la ra hp hw := by
  have hSit : ¬ sittingCond ls rs lh rh lk rk la ra := fun h => h.2.2.2.2.1.1 hTH
  have hSitZ : ¬ sittingCondZero ls rs lh rh lk rk la ra := by
    intro h
    have h6 := h.2.2.2.2.2
    rw [ratioOrZero, if_pos hTH] at h6
    norm_num at h6
  have hStand : ¬ standingCond ls rs lh rh lk rk la ra := fun h => h.2.2.2.2.2.1.1 hTH
  have hStandZ : ¬ standingCondZero ls rs lh rh lk rk la ra := by
    intro h
    have h7 := h.2.2.2.2.2.2
    rw [ratioOrZero, if_pos hTH] at h7
    norm_num at h7
  unfold decideRules decideRulesRatiosZero
  rw [if_neg hSit, if_neg hSitZ, if_neg hStand, if_neg hStandZ]

/-- A fully degenerate keypoint: every landmark at the same position. -/
def dgKp : Keypoint := mkKp ("p") 5 5 1

/-- Witness for `zero_total_height_matches_ratio_zero_rules`: all 13 keypoints
coincident, so `totalHeight = 0`. -/
theorem zero_total_height_matches_ratio_zero_rules_witness :
    totalHeightOf dgKp dgKp dgKp dgKp dgKp dgKp dgKp dgKp = 0 ∧
    decideRules dgKp dgKp dgKp dgKp dgKp dgKp dgKp dgKp dgKp dgKp dgKp dgKp dgKp [] [] =
      decideRulesRatiosZero dgKp dgKp dgKp dgKp dgKp dgKp dgKp dgKp dgKp dgKp dgKp dgKp dgKp
        [] [] := by
  have d0 : calculateDistance dgKp dgKp = 0 :=
    calculateDistance_eval _ _ 0 le_rfl (by norm_num [dgKp])
  have h0 : totalHeightOf dgKp dgKp dgKp dgKp dgKp dgKp dgKp dgKp = 0 := by
    rw [totalHeightOf, shoulderHipDistOf, hipKneeDistOf, kneeAnkleDistOf, d0]
    norm_num
  exact ⟨h0, zero_total_height_matches_ratio_zero_rules dgKp dgKp dgKp dgKp dgKp dgKp dgKp
    dgKp dgKp dgKp dgKp dgKp dgKp [] [] h0⟩

/-- Claim C6: `isWaving` is false on histories of fewer than 10 samples; on a
history of at least 10 samples it holds iff, over the last 10 samples, the
left or the right wrist's average absolute consecutive horizontal delta (9
values averaged) exceeds 20 and exceeds twice that side's average absolute
consecutive vertical delta. -/
theorem isWaving_window_spec (w : List WristPair) :
    (w.length < 10 → ¬ isWaving w) ∧
    (10 ≤ w.length →
      (isWaving w ↔
        specSideWaving (fun p => p.left.x) (fun p => p.left.y) (lastN 10 w) ∨
        specSideWaving (fun p => p.right.x) (fun p => p.right.y) (lastN 10 w))) := by
  constructor
  · intro h
    rw [isWaving, if_pos h]
    exact not_false
  · intro h10
    have hlen : (lastN 10 w).length = 10 := by
      rw [lastN_length]
      omega
    have h9 : ∀ f : WristPair → ℝ,
        avgOf (consecAbsDeltas f (lastN 10 w)) = specAvgAbsDelta f (lastN 10 w) := by
      intro f
      rw [avgOf, specAvgAbsDelta, consecAbsDeltas_length, hlen]
      norm_num
    rw [isWaving, if_neg (by omega : ¬ w.length < 10)]
    simp only [specSideWaving, h9]

/-- A wrist-pair sample with the left wrist at `(px, 0)`, right wrist fixed. -/
def wvSample (px : ℝ) : WristPair := ⟨⟨px, 0⟩, ⟨0, 0⟩⟩

/-- Ten samples whose left wrist advances 25 units horizontally each frame. -/
def wv10 : List WristPair :=
  [wvSample 0, wvSample 25, wvSample 50, wvSample 75, wvSample 100, wvSample 125,
    wvSample 150, wvSample 175, wvSample 200, wvSample 225]

/-- Witness for `isWaving_window_spec`: `wv10` waves (left average delta 25
horizontal, 0 vertical), and an empty history does not. -/
theorem isWaving_window_spec_witness : isWaving wv10 ∧ ¬ isWaving [] := by
  constructor
  · refine ((isWaving_window_spec wv10).2 (by norm_num [wv10])).mpr (Or.inl ?_)
    have hl : lastN 10 wv10 = wv10 := lastN_of_le (by norm_num [wv10])
    have hx : consecAbsDeltas (fun p => p.left.x) wv10 =
        [25, 25, 25, 25, 25, 25, 25, 25, 25] := by
      norm_num [consecAbsDeltas, wv10, wvSample]
    have hy : consecAbsDeltas (fun p => p.left.y) wv10 =
        [0, 0, 0, 0, 0, 0, 0, 0, 0] := by
      norm_num [consecAbsDeltas, wv10, wvSample]
    constructor
    · rw [specAvgAbsDelta, hl, hx]
      norm_num
    · rw [specAvgAbsDelta, specAvgAbsDelta, hl, hx, hy]
      norm_num
  · exact (isWaving_window_spec []).1 (by norm_num)

/-- Claim C7: `isMoving` is false on histories of fewer than 5 samples; on a
history of at least 5 samples it holds iff the average of the 4
consecutive-pair displacement distances over the last 5 samples exceeds 15.
The current-position argument plays no part. -/
theorem isMoving_window_spec (h : List Pt) (p : Pt) :
    (h.length < 5 → ¬ isMoving h p) ∧
    (5 ≤ h.length → (isMoving h p ↔ specAvgDisplacement (lastN 5 h) > 15)) := by
  constructor
  · intro hlt
    rw [isMoving, if_pos hlt]
    exact not_false
  · intro h5
    have hlen : (lastN 5 h).length = 5 := by
      rw [lastN_length]
      omega
    rw [isMoving, if_neg (by omega : ¬ h.length < 5), specAvgDisplacement, hlen]
    norm_num

/-- Five samples moving 20 units right each frame, the spec's own test. -/
def mv5 : List Pt := [⟨0, 0⟩, ⟨20, 0⟩, ⟨40, 0⟩, ⟨60, 0⟩, ⟨80, 0⟩]

/-- Witness for `isMoving_window_spec`: `mv5` moves (average displacement 20),
and an empty history does not. -/
theorem isMoving_window_spec_witness : isMoving mv5 ⟨0, 0⟩ ∧ ¬ isMoving [] ⟨0, 0⟩ := by
  constructor
  · refine ((isMoving_window_spec mv5 ⟨0, 0⟩).2 (by norm_num [mv5])).mpr ?_
    have hl : lastN 5 mv5 = mv5 := lastN_of_le (by norm_num [mv5])
    have h400 : Real.sqrt 400 = 20 := by
      rw [show (400:ℝ) = 20 ^ 2 by norm_num, Real.sqrt_sq (by norm_num)]
    have hs : sumConsecDist mv5 = 80 := by
      norm_num [sumConsecDist, mv5, h400]
    rw [specAvgDisplacement, hl, hs]
    norm_num
  · exact (isMoving_window_spec [] ⟨0, 0⟩).1 (by norm_num)

/-- Claim C8: starting empty, the position history never exceeds 10 samples
and, after at least 10 appends from any starting state, holds exactly the
last 10 appended samples in order; the wrist history likewise with
capacity 20 — oldest-first FIFO eviction. -/
theorem history_buffers_capacity_fifo :
    (∀ l : List Pt, (List.foldl appendPos [] l).length ≤ 10) ∧
    (∀ init l : List Pt, 10 ≤ l.length → List.foldl appendPos init l = lastN 10 l) ∧
    (∀ l : List WristPair, (List.foldl appendWrist [] l).length ≤ 20) ∧
    (∀ init l : List WristPair, 20 ≤ l.length → List.foldl appendWrist init l = lastN 20 l) := by
  refine ⟨fun l => ?_, fun init l hl => ?_, fun l => ?_, fun init l hl => ?_⟩
  · exact foldl_appendCap_length_le 9 l
  · exact foldl_appendCap_of_length 9 init l hl
  · exact foldl_appendCap_length_le 19 l
  · exact foldl_appendCap_of_length 19 init l hl

/-- Twelve distinct position samples. -/
def posHist12 : List Pt :=
  [⟨1, 0⟩, ⟨2, 0⟩, ⟨3, 0⟩, ⟨4, 0⟩, ⟨5, 0⟩, ⟨6, 0⟩, ⟨7, 0⟩, ⟨8, 0⟩, ⟨9, 0⟩,
    ⟨10, 0⟩, ⟨11, 0⟩, ⟨12, 0⟩]

/-- Twenty-five distinct wrist-pair samples, the spec's own test size. -/
def wrHist25 : List WristPair :=
  [wvSample 1, wvSample 2, wvSample 3, wvSample 4, wvSample 5, wvSample 6, wvSample 7,
    wvSample 8, wvSample 9, wvSample 10, wvSample 11, wvSample 12, wvSample 13,
    wvSample 14, wvSample 15, wvSample 16, wvSample 17, wvSample 18, wvSample 19,
    wvSample 20, wvSample 21, wvSample 22, wvSample 23, wvSample 24, wvSample 25]

/-- Witness for `history_buffers_capacity_fifo`: 12 appends retain the last
10 position samples; 25 appends retain the last 20 wrist samples. -/
theorem history_buffers_capacity_fifo_witness :
    List.foldl appendPos [] posHist12 = lastN 10 posHist12 ∧
    List.foldl appendWrist [] wrHist25 = lastN 20 wrHist25 :=
  ⟨history_buffers_capacity_fifo.2.1 [] posHist12
      (by norm_num [posHist12]),
    history_buffers_capacity_fifo.2.2.2 [] wrHist25
      (by norm_num [wrHist25])⟩

/-- Claim C9: `calculateAngle` always lies in the closed interval `[0, 180]`,
and on a fully degenerate triple `(p, p, p)` it is well defined and equals 0
(`atan2(0, 0) = 0`). -/
theorem calculateAngle_range_and_degenerate :
    (∀ p1 p2 p3 : Keypoint, 0 ≤ calculateAngle p1 p2 p3 ∧ calculateAngle p1 p2 p3 ≤ 180) ∧
    (∀ p : Keypoint, calculateAngle p p p = 0) := by
  constructor
  · intro p1 p2 p3
    have hraw_nonneg : 0 ≤ rawAngle p1 p2 p3 := by
      rw [rawAngle]
      exact abs_nonneg _
    have hraw_eq : rawAngle p1 p2 p3 =
        |atan2 (p3.y - p2.y) (p3.x - p2.x) - atan2 (p1.y - p2.y) (p1.x - p2.x)| *
          180 / Real.pi := by
      rw [rawAngle, abs_div, abs_mul, abs_of_pos Real.pi_pos]
      norm_num
    have hraw_lt : rawAngle p1 p2 p3 < 360 := by
      rw [hraw_eq, div_lt_iff₀ Real.pi_pos]
      have hA1 := neg_pi_lt_atan2 (p3.y - p2.y) (p3.x - p2.x)
      have hA2 := atan2_le_pi (p3.y - p2.y) (p3.x - p2.x)
      have hB1 := neg_pi_lt_atan2 (p1.y - p2.y) (p1.x - p2.x)
      have hB2 := atan2_le_pi (p1.y - p2.y) (p1.x - p2.x)
      have habs : |atan2 (p3.y - p2.y) (p3.x - p2.x) -
          atan2 (p1.y - p2.y) (p1.x - p2.x)| < 2 * Real.pi :=
        abs_lt.mpr ⟨by linarith, by linarith⟩
      nlinarith [Real.pi_pos]
    rw [calculateAngle]
    by_cases hgt : rawAngle p1 p2 p3 > 180
    · rw [if_pos hgt]
      constructor <;> linarith
    · rw [if_neg hgt]
      push_neg at hgt
      exact ⟨hraw_nonneg, hgt⟩
  · intro p
    have h0 : atan2 (p.y - p.y) (p.x - p.x) = 0 := by
      rw [sub_self, sub_self]
      exact atan2_zero_zero
    rw [calculateAngle, rawAngle, h0]
    norm_num

/-- Claim C10: `isMoving` depends only on the stored history — its
current-position parameter is never read, so any two arguments give the same
result on the same history. -/
theorem isMoving_ignores_current_position (h : List Pt) (p q : Pt) :
    isMoving h p = isMoving h q :=
  rfl
